import Mathlib

/-!
Verification of the autosave persistence engine (`softioc/autosave.py`).

The Python module is embedded shallowly:

* Python dicts become insertion-ordered association lists over `String` keys.
* PV values become the inductive type `Value`; numpy arrays are numeric
  arrays modelled as integer lists and compared element-wise
  (`numpy.array_equal` becomes structural equality on `Value`).
* `datetime` instants become `Nat` seconds; `timedelta.seconds` becomes
  `(now - then) % 86400`, the seconds component of the difference.
* Disk effects are explicit: each operation the code completes is recorded
  as a `DiskOp`, and fallibility of the filesystem is injected through a
  `DiskOutcome` / `LoadWorld` oracle.  Python exceptions become explicit
  `PyErr` values or `raised`/`caught` flags placed exactly where the
  source raises or catches.
-/

set_option linter.unusedVariables false

namespace Autosave

/-- Serializable values handled by autosave: scalars and numeric arrays.
numpy arrays are modelled as integer lists; `numpy.array_equal` is
element-wise, which on this type is structural equality. -/
inductive Value
  | int : Int → Value
  | str : String → Value
  | arr : List Int → Value
deriving DecidableEq

/-- A snapshot / state dictionary: an insertion-ordered map from key to
value, modelling a Python dict (keys unique in any dict the code builds). -/
abbrev Dict := List (String × Value)

/-- Association-list lookup, modelling Python dict subscription `d[k]`
(first binding wins, which agrees with dicts since their keys are unique). -/
def alookup {α : Type} : List (String × α) → String → Option α
  | [], _ => none
  | (k', v) :: rest, k => if k' = k then some v else alookup rest k

/-- The key list of an association list, modelling `dict.keys()`. -/
def akeys {α : Type} (l : List (String × α)) : List String :=
  l.map Prod.fst

/-- Boolean key membership used to model the set comparison of
`dict.keys()` views. -/
def keyMem (k : String) : List String → Bool
  | [] => false
  | k' :: rest => if k' = k then true else keyMem k rest

theorem keyMem_iff {k : String} {l : List String} :
    keyMem k l = true ↔ k ∈ l := by
  induction l with
  | nil => simp [keyMem]
  | cons k' rest ih =>
    by_cases h : k' = k
    · subst h; simp [keyMem]
    · simp only [keyMem, if_neg h, ih, List.mem_cons]
      constructor
      · intro hk; exact Or.inr hk
      · rintro (hk | hk)
        · exact absurd hk.symm h
        · exact hk

theorem alookup_mem {α : Type} {l : List (String × α)} {k : String} {v : α}
    (h : alookup l k = some v) : (k, v) ∈ l := by
  induction l with
  | nil => simp [alookup] at h
  | cons p rest ih =>
    match p with
    | (k', v') =>
      by_cases hk : k' = k
      · subst hk
        simp [alookup] at h
        subst h
        exact List.mem_cons_self _ _
      · simp [alookup, hk] at h
        exact List.mem_cons_of_mem _ (ih h)

theorem mem_akeys_of_pair {α : Type} {l : List (String × α)} {k : String} {v : α}
    (h : (k, v) ∈ l) : k ∈ akeys l :=
  List.mem_map.mpr ⟨(k, v), h, rfl⟩

theorem alookup_of_mem_nodup {α : Type} {l : List (String × α)} {k : String} {v : α}
    (hnd : (akeys l).Nodup) (hmem : (k, v) ∈ l) : alookup l k = some v := by
  induction l with
  | nil => simp at hmem
  | cons p rest ih =>
    match p with
    | (k', v') =>
      have hnd' : k' ∉ akeys rest ∧ (akeys rest).Nodup := by
        simpa [akeys, List.nodup_cons] using hnd
      rcases List.mem_cons.mp hmem with h | h
      · rw [Prod.mk.injEq] at h
        simp [alookup, h.1, h.2]
      · have hk : k' ≠ k := by
          intro he
          subst he
          exact hnd'.1 (mem_akeys_of_pair h)
        simp [alookup, hk]
        exact ih hnd'.2 h

theorem mem_akeys_of_alookup {α : Type} {l : List (String × α)} {k : String} {v : α}
    (h : alookup l k = some v) : k ∈ akeys l :=
  mem_akeys_of_pair (alookup_mem h)

theorem alookup_isSome_of_mem_akeys {α : Type} {l : List (String × α)} {k : String}
    (h : k ∈ akeys l) : ∃ v, alookup l k = some v := by
  induction l with
  | nil => simp [akeys] at h
  | cons p rest ih =>
    match p with
    | (k', v') =>
      by_cases hk : k' = k
      · subst hk; exact ⟨v', by simp [alookup]⟩
      · simp [akeys] at h
        rcases h with h | h
        · exact absurd h.symm hk
        · simpa [alookup, hk] using ih (by simpa [akeys] using h)

theorem alookup_none_iff {α : Type} {l : List (String × α)} {k : String} :
    alookup l k = none ↔ k ∉ akeys l := by
  constructor
  · intro h hk
    rcases alookup_isSome_of_mem_akeys hk with ⟨v, hv⟩
    rw [h] at hv
    cases hv
  · intro h
    cases hl : alookup l k with
    | none => rfl
    | some v => exact absurd (mem_akeys_of_alookup hl) h

/-- An accessor for one PV (or one field of it), modelling `_AutosavePV`:
`get` is the outcome that reading the underlying variable would produce at
this moment (a value, or a raised exception), and `setOk v` says whether
`set(v)` would succeed.  Freezing the outcomes makes one observation of the
external variable framework explicit. -/
structure Accessor where
  get : Except String Value
  setOk : Value → Bool

/-- Embeds `__AutosaveFile`: one named save-file with its schedule, backup
policy, enabled flag, registered accessors (`pvs`) and the in-memory record
of the last saved state and time (`last_state`, `last_saved_time`).
Instants are `Nat` seconds. -/
structure AutosaveFile where
  filename : String
  save_period : Nat
  timestamped_backups : Bool
  enabled : Bool
  last_saved_time : Nat
  pvs : List (String × Accessor)
  last_state : Dict

/-- Embeds `__Autosave._get_state`: read every accessor; a failing `get`
is caught, logged (second component) and its key simply omitted from the
snapshot (first component). -/
def get_state (pvs : List (String × Accessor)) : Dict × List String :=
  match pvs with
  | [] => ([], [])
  | (k, a) :: rest =>
    let r := get_state rest
    match a.get with
    | .ok v => ((k, v) :: r.1, r.2)
    | .error _ => (r.1, k :: r.2)

/-- The fresh snapshot `_save` reads through a file's accessors. -/
def fresh_state (file : AutosaveFile) : Dict :=
  (get_state file.pvs).1

/-- Models the comparison `state.keys() != file.last_state.keys()` (Python
dict key views compare as sets; here equality of the two key sets). -/
def keySetEq (a b : Dict) : Bool :=
  (akeys a).all (fun k => keyMem k (akeys b)) &&
    (akeys b).all (fun k => keyMem k (akeys a))

/-- The per-key comparison inside `_state_changed`:
`not numpy.array_equal(state[key], file.last_state[key])` for one key of
`state`.  The `none` branch mirrors the `KeyError` Python would raise on a
missing key; it is unreachable in the source because the generator is only
consumed when the key sets are equal. -/
def value_diff (last : Dict) (kv : String × Value) : Bool :=
  match alookup last kv.1 with
  | some w => !(kv.2 == w)
  | none => true

/-- Embeds `__Autosave._state_changed` (the Differ): true iff the key sets
differ, or some key of `state` holds a value that differs from the last
state's under element-wise equality.  A pure function of its inputs. -/
def state_changed (state last : Dict) : Bool :=
  !(keySetEq state last) || state.any (value_diff last)

/-- The Differ contract as the spec words it: the key sets differ, or some
shared key's value differs under value-semantic equality. -/
def snapshots_differ (cur last : Dict) : Prop :=
  (¬ ∀ k, k ∈ akeys cur ↔ k ∈ akeys last) ∨
    ∃ k v w, alookup cur k = some v ∧ alookup last k = some w ∧ v ≠ w

theorem keySetEq_iff {a b : Dict} :
    keySetEq a b = true ↔ (∀ k, k ∈ akeys a ↔ k ∈ akeys b) := by
  simp only [keySetEq, Bool.and_eq_true, List.all_eq_true, keyMem_iff]
  constructor
  · rintro ⟨h1, h2⟩ k
    exact ⟨fun hk => h1 k hk, fun hk => h2 k hk⟩
  · intro h
    exact ⟨fun k hk => (h k).mp hk, fun k hk => (h k).mpr hk⟩

theorem state_changed_iff {cur last : Dict} (hnd : (akeys cur).Nodup) :
    state_changed cur last = true ↔ snapshots_differ cur last := by
  simp only [state_changed, Bool.or_eq_true, Bool.not_eq_true',
    List.any_eq_true, snapshots_differ]
  constructor
  · rintro (h | ⟨⟨k, v⟩, hmem, hdiff⟩)
    · exact Or.inl (fun hall => by rw [keySetEq_iff.mpr hall] at h; cases h)
    · simp only [value_diff] at hdiff
      cases hl : alookup last k with
      | none =>
        refine Or.inl (fun hall => ?_)
        have : k ∈ akeys last := (hall k).mp (mem_akeys_of_pair hmem)
        exact absurd hl (by
          rcases alookup_isSome_of_mem_akeys this with ⟨w, hw⟩
          simp [hw])
      | some w =>
        rw [hl] at hdiff
        refine Or.inr ⟨k, v, w, alookup_of_mem_nodup hnd hmem, hl, ?_⟩
        simpa using hdiff
  · rintro (h | ⟨k, v, w, hc, hl, hne⟩)
    · left
      cases hk : keySetEq cur last with
      | false => rfl
      | true => exact absurd (keySetEq_iff.mp hk) h
    · right
      refine ⟨(k, v), alookup_mem hc, ?_⟩
      simp [value_diff, hl, hne]

/-- A snapshot never differs from itself (needs unique keys, which every
snapshot read from a Python dict of accessors has). -/
theorem state_changed_self {s : Dict} (hnd : (akeys s).Nodup) :
    state_changed s s = false := by
  cases h : state_changed s s with
  | false => rfl
  | true =>
    rcases (state_changed_iff hnd).mp h with hk | ⟨k, v, w, hc, hl, hne⟩
    · exact absurd (fun k => Iff.rfl) hk
    · rw [hc] at hl
      cases hl
      exact absurd rfl hne

/-- The keys of the snapshot `_get_state` reads form a sublist of the
accessor keys (failed reads are omitted), so unique accessor keys give a
snapshot with unique keys. -/
theorem akeys_get_state_sublist (pvs : List (String × Accessor)) :
    (akeys (get_state pvs).1).Sublist (akeys pvs) := by
  induction pvs with
  | nil => simp [get_state, akeys]
  | cons p rest ih =>
    match p with
    | (k, a) =>
      cases hg : a.get with
      | ok v => simpa [get_state, akeys, hg] using List.Sublist.cons₂ k ih
      | error e => simpa [get_state, akeys, hg] using List.Sublist.cons k ih

theorem akeys_get_state_nodup {pvs : List (String × Accessor)}
    (hnd : (akeys pvs).Nodup) : (akeys (get_state pvs).1).Nodup :=
  List.Nodup.sublist (akeys_get_state_sublist pvs) hnd

def SAV_SUFFIX : String := "softsav"

def SAVB_SUFFIX : String := "softsavB"

def DEFAULT_FILENAME : String := "auto"

/-- Embeds `__Autosave._get_sav_file`: the canonical save path. -/
def get_sav_file (dir : String) (file : AutosaveFile) : String :=
  dir ++ "/" ++ file.filename ++ "." ++ SAV_SUFFIX

/-- Embeds `__Autosave._get_tmp_file`: the temporary write path. -/
def get_tmp_file (dir : String) (file : AutosaveFile) : String :=
  dir ++ "/" ++ file.filename ++ "." ++ SAVB_SUFFIX

/-- A completed disk mutation: the temp-file write of a serialized
snapshot, the atomic rename onto the canonical path, or a `copy2` backup. -/
inductive DiskOp
  | writeTmp : String → Dict → DiskOp
  | rename : String → String → DiskOp
  | copy : String → String → DiskOp
deriving DecidableEq

/-- Filesystem oracle for one `_save` call: whether the temp-file
open-and-dump succeeds, whether the rename succeeds, and whether a
canonical file currently exists on disk.  `_save` never consults
`savIsFile`: the source performs no backup and no existence check in the
save path, so the field records disk state the code ignores. -/
structure DiskOutcome where
  writeOk : Bool
  renameOk : Bool
  savIsFile : Bool

/-- Result of one `_save` call: the file record afterwards, the completed
disk operations in order, and whether the call raised an exception (which
propagates to the caller; `_save` has no handler of its own).  A failed
temp write may leave a partial temporary file behind; `ops` records only
completed operations, and the canonical path is touched only by the
rename. -/
structure SaveResult where
  file : AutosaveFile
  ops : List DiskOp
  raised : Bool

/-- Embeds `__Autosave._save`.  In order, as in the source:
return early when `(now - last_saved_time).seconds < save_period` and not
`force` (the seconds COMPONENT of the timedelta, `(now - t) % 86400` — not
the total elapsed time); read the fresh state; return early when
`_state_changed` is false; write the serialized state to the temp path;
rename it onto the canonical path; only then update `last_state` and
`last_saved_time`.  The initial `print(file, now)` is console output, not
a disk write, and is not modelled. -/
def save (dir : String) (file : AutosaveFile) (now : Nat) (force : Bool)
    (w : DiskOutcome) : SaveResult :=
  if (now - file.last_saved_time) % 86400 < file.save_period ∧ force = false then
    ⟨file, [], false⟩
  else
    let state := fresh_state file
    if state_changed state file.last_state = false then
      ⟨file, [], false⟩
    else if w.writeOk = false then
      ⟨file, [], true⟩
    else if w.renameOk = false then
      ⟨file, [DiskOp.writeTmp (get_tmp_file dir file) state], true⟩
    else
      ⟨⟨file.filename, file.save_period, file.timestamped_backups, file.enabled,
          now, file.pvs, state⟩,
        [DiskOp.writeTmp (get_tmp_file dir file) state,
          DiskOp.rename (get_tmp_file dir file) (get_sav_file dir file)], false⟩

/-- Result of `_save_all` or of the loop's per-file pass over a list of
files: the file records afterwards (in registry order), the completed disk
operations, and whether an exception was raised (aborting the remaining
files; the loop's `except` then catches it). -/
structure FlushResult where
  files : List AutosaveFile
  ops : List DiskOp
  raised : Bool

/-- Embeds `__Autosave._save_all`: `_save(file, now, force=True)` for every
file in the registry — enabled or not, there is no `enabled` filter in the
source.  An exception in one save propagates, leaving the remaining files
unprocessed. -/
def save_all (dir : String) (files : List AutosaveFile) (now : Nat)
    (w : DiskOutcome) : FlushResult :=
  match files with
  | [] => ⟨[], [], false⟩
  | f :: rest =>
    let r := save dir f now true w
    if r.raised then ⟨r.file :: rest, r.ops, true⟩
    else
      let fr := save_all dir rest now w
      ⟨r.file :: fr.files, r.ops ++ fr.ops, fr.raised⟩

/-- One pass of the loop's `for file in self.files.values()` when the stop
event is NOT set: `_save(file, now)` for every file — again with no
`enabled` filter.  `caught` records whether an exception was raised and
then caught by the loop's `except` clause, aborting the rest of the
pass. -/
structure PassResult where
  files : List AutosaveFile
  ops : List DiskOp
  caught : Bool

def loop_pass (dir : String) (files : List AutosaveFile) (now : Nat)
    (w : DiskOutcome) : PassResult :=
  match files with
  | [] => ⟨[], [], false⟩
  | f :: rest =>
    let r := save dir f now false w
    if r.raised then ⟨r.file :: rest, r.ops, true⟩
    else
      let pr := loop_pass dir rest now w
      ⟨r.file :: pr.files, r.ops ++ pr.ops, pr.caught⟩

/-- The loop's pass when the stop event IS set: each of the `n` iterations
of `for file in self.files.values()` calls `_save_all(now)` on the whole
registry; a raise aborts the pass (caught by the loop's `except`). -/
def stop_pass (dir : String) (now : Nat) (w : DiskOutcome) :
    Nat → List AutosaveFile → List AutosaveFile
  | 0, fs => fs
  | n + 1, fs =>
    let r := save_all dir fs now w
    if r.raised then r.files else stop_pass dir now w n r.files

/-- The body of one `while True` iteration of `__Autosave.loop`, with the
stop event fixed: take `now`, run the per-file pass (or the stop variant),
catch any exception.  Notably it contains no `break` or `return`. -/
def loop_body (dir : String) (files : List AutosaveFile) (now : Nat)
    (stopSet : Bool) (w : DiskOutcome) : List AutosaveFile :=
  if stopSet then stop_pass dir now w files.length files
  else (loop_pass dir files now w).files

/-- Observable fate of `__Autosave.loop` after a bounded number of
iterations: either the function returned, or it is still running. -/
inductive LoopOutcome
  | returned : List AutosaveFile → LoopOutcome
  | running : List AutosaveFile → LoopOutcome

/-- The `while True` loop, fuel-indexed: every iteration runs the body and
continues; nothing inside ever leaves the loop. -/
def loop_iter (dir : String) (stopSet : Bool) (w : DiskOutcome)
    (times : Nat → Nat) : Nat → List AutosaveFile → LoopOutcome
  | 0, fs => .running fs
  | n + 1, fs => loop_iter dir stopSet w times n (loop_body dir fs (times n) stopSet w)

/-- Embeds `__Autosave.loop`: return immediately when autosave is disabled
or no files are configured (`if not self.enabled or not self.files:
return`); otherwise enter the `while True` loop.  `times n` supplies the
`datetime.now()` reading of each iteration. -/
def loop_run (dir : String) (enabled : Bool) (stopSet : Bool)
    (w : DiskOutcome) (times : Nat → Nat) (fuel : Nat)
    (files : List AutosaveFile) : LoopOutcome :=
  if enabled = false ∨ files.isEmpty = true then .returned files
  else loop_iter dir stopSet w times fuel files

/-- Python exceptions the embedded fragments can raise. -/
inductive PyErr
  | keyError : String → PyErr
  | typeError : PyErr
  | valueError : String → PyErr
deriving DecidableEq

/-- One iteration of the body of `_set_pvs_from_state`'s `try` block:
`pv = file.pvs[pv_field]` (a `KeyError` when the key has no accessor)
followed by `pv.set(value)` (which may itself raise). -/
def pv_lookup_and_set (pvs : List (String × Accessor)) (k : String)
    (v : Value) : Except PyErr Unit :=
  match alookup pvs k with
  | none => .error (.keyError k)
  | some a => if a.setOk v then .ok () else .error (.valueError k)

/-- Outcome of applying a deserialized state: the entries whose `set`
succeeded (in order) and the keys for which an exception was caught and a
diagnostic printed. -/
structure ApplyResult where
  applied : List (String × Value)
  diags : List String
deriving DecidableEq

/-- Embeds `__Autosave._set_pvs_from_state`: for each entry of the state
dict, look the accessor up and set it; the `try`/`except` INSIDE the loop
catches each entry's exception, prints a diagnostic for that key, and
continues with the remaining entries, so the function as a whole never
raises. -/
def set_pvs_from_state (pvs : List (String × Accessor)) : Dict → ApplyResult
  | [] => ⟨[], []⟩
  | (k, v) :: rest =>
    let r := set_pvs_from_state pvs rest
    match pv_lookup_and_set pvs k v with
    | .ok _ => ⟨(k, v) :: r.applied, r.diags⟩
    | .error _ => ⟨r.applied, k :: r.diags⟩

/-- Filesystem oracle for `_load`: which paths are regular files, and what
reading-and-parsing a path yields (`yaml.full_load`, or a raised
exception). -/
structure LoadWorld where
  isFile : String → Bool
  parse : String → Except String Dict

/-- The backup path `_load` computes for a file: with timestamped backups,
the canonical path suffixed with the file's `last_saved_time` rendered at
second granularity (the source's `strftime('_%y%m%d-%H%M%S')`, modelled by
`fmt_time` as an injective rendering of the instant); otherwise the fixed
path `<directory>/<filename>.bu`. -/
def fmt_time (t : Nat) : String :=
  "_" ++ toString t

def backup_path (dir : String) (file : AutosaveFile) : String :=
  if file.timestamped_backups then
    get_sav_file dir file ++ fmt_time file.last_saved_time
  else dir ++ "/" ++ file.filename ++ ".bu"

/-- Result of `_load` for a single file: completed disk operations,
entries applied, diagnostics, and whether the file was skipped because no
canonical file exists. -/
structure FileLoadResult where
  ops : List DiskOp
  applied : List (String × Value)
  diags : List String
  skipped : Bool

/-- Embeds the body of `__Autosave._load` for one file: skip when the
canonical path is not a file; otherwise FIRST copy the canonical file to
the backup path (`copy2`, outside any `try`), then parse it and apply the
state, the `try`/`except` catching any parse failure. -/
def load_file (dir : String) (lw : LoadWorld) (file : AutosaveFile) :
    FileLoadResult :=
  let sav := get_sav_file dir file
  if lw.isFile sav = false then ⟨[], [], [], true⟩
  else
    let cop := DiskOp.copy sav (backup_path dir file)
    match lw.parse sav with
    | .error _ => ⟨[cop], [], [], false⟩
    | .ok st =>
      let r := set_pvs_from_state file.pvs st
      ⟨[cop], r.applied, r.diags, false⟩

/-- Embeds `__Autosave._load`: the per-file load over
`[f for f in cls.files.values() if f.enabled]` — the one place the
per-file `enabled` flag is consulted. -/
def load (dir : String) (lw : LoadWorld) (files : List AutosaveFile) :
    List FileLoadResult :=
  (files.filter (fun f => f.enabled)).map (load_file dir lw)

/-- Python dict assignment `d[k] = v`: replace the binding in place when
the key is present, append otherwise. -/
def dinsert {α : Type} : List (String × α) → String → α → List (String × α)
  | [], k, v => [(k, v)]
  | (k', v') :: rest, k, v =>
    if k' = k then (k, v) :: rest else (k', v') :: dinsert rest k v

/-- Embeds `_AutosavePV(pv)` (no field / field "VAL"): an accessor wrapping
the PV's own get and set. -/
def autosave_pv (pv : Accessor) : Accessor :=
  ⟨pv.get, pv.setOk⟩

/-- Embeds the call `__AutosaveFile(pv, field)` in `add_pv_to_autosave`'s
per-field loop: `__AutosaveFile.__init__` requires four positional
arguments (filename, save_period, timestamped_backups, enabled), so
calling it with two raises `TypeError` before any object is constructed
or any accessor produced. -/
def autosaveFile_two_arg_call (pv : Accessor) (field : String) :
    Except PyErr Accessor :=
  .error .typeError

/-- The `for field in save_fields` loop of `add_pv_to_autosave`,
parameterized by the constructor `mk` the loop calls for each field (in
the source, `autosaveFile_two_arg_call pv`).  Each iteration evaluates the
right-hand side first; on success it assigns the result into
`file.pvs[name]` — keyed by the bare PV name — and on a raise the
exception propagates, keeping the mutations made so far. -/
def add_fields_loop (mk : String → Except PyErr Accessor) (name : String) :
    AutosaveFile → List String → AutosaveFile × Except PyErr Unit
  | f, [] => (f, .ok ())
  | f, fld :: rest =>
    match mk fld with
    | .error e => (f, .error e)
    | .ok a =>
      add_fields_loop mk name
        ⟨f.filename, f.save_period, f.timestamped_backups, f.enabled,
          f.last_saved_time, dinsert f.pvs name a, f.last_state⟩ rest

/-- Embeds `add_pv_to_autosave` over an explicit registry (the source's
`__Autosave.files`): default the filename when falsy, raise when it is not
configured, register the whole-value accessor under `name` when
`save_val`, then run the per-field loop.  The returned registry reflects
all mutations made before any raise. -/
def add_pv_to_autosave (files : List (String × AutosaveFile)) (pv : Accessor)
    (name : String) (save_val : Bool) (save_fields : List String)
    (filename : String) :
    List (String × AutosaveFile) × Except PyErr Unit :=
  let fn := if filename = "" then DEFAULT_FILENAME else filename
  match alookup files fn with
  | none => (files, .error (.valueError fn))
  | some file =>
    let file1 :=
      if save_val then
        ⟨file.filename, file.save_period, file.timestamped_backups,
          file.enabled, file.last_saved_time,
          dinsert file.pvs name (autosave_pv pv), file.last_state⟩
      else file
    let r := add_fields_loop (autosaveFile_two_arg_call pv) name file1 save_fields
    (dinsert files fn r.1, r.2)

/-! Concrete fixtures used by closed theorems and witnesses. -/

/-- An accessor whose read yields the integer `n` and whose set always
succeeds. -/
def acc_int (n : Int) : Accessor :=
  ⟨.ok (.int n), fun _ => true⟩

/-- A fully healthy filesystem with an existing canonical file. -/
def wOk : DiskOutcome :=
  ⟨true, true, true⟩

/-- A filesystem where the temp-file write raises an I/O error. -/
def wWriteFail : DiskOutcome :=
  ⟨false, true, true⟩

/-- An enabled file whose current value (6) differs from its last saved
state (5): a dirty file, last saved at instant 0, period 30 s. -/
def file_changed : AutosaveFile :=
  ⟨"auto", 30, true, true, 0, [("x", acc_int 6)], [("x", Value.int 5)]⟩

/-- The same dirty file but with `enabled := false`. -/
def file_disabled : AutosaveFile :=
  ⟨"auto", 30, true, false, 0, [("x", acc_int 6)], [("x", Value.int 5)]⟩

/-- An enabled file whose current value equals its last saved state: a
clean file, last saved at instant 100. -/
def file_unchanged : AutosaveFile :=
  ⟨"auto", 30, true, true, 100, [("x", acc_int 5)], [("x", Value.int 5)]⟩

/-- A save with an unchanged snapshot returns before any disk operation,
whatever the period, `force` flag, or filesystem health: both early
returns yield the untouched file and an empty operation list. -/
theorem save_of_not_changed {dir : String} {f : AutosaveFile} {now : Nat}
    {force : Bool} {w : DiskOutcome}
    (h : state_changed (fresh_state f) f.last_state = false) :
    save dir f now force w = ⟨f, [], false⟩ := by
  simp [save, h]

/-- A forced save of a changed snapshot on a healthy filesystem writes the
temp file, renames it onto the canonical path, and updates `last_state`
and `last_saved_time`. -/
theorem save_changed_force_ok {dir : String} {f : AutosaveFile} {now : Nat}
    {w : DiskOutcome} (h : state_changed (fresh_state f) f.last_state = true)
    (hw : w.writeOk = true) (hr : w.renameOk = true) :
    save dir f now true w =
      ⟨⟨f.filename, f.save_period, f.timestamped_backups, f.enabled, now,
          f.pvs, fresh_state f⟩,
        [DiskOp.writeTmp (get_tmp_file dir f) (fresh_state f),
          DiskOp.rename (get_tmp_file dir f) (get_sav_file dir f)], false⟩ := by
  simp [save, h, hw, hr]

/-- Claim C1, amended (the flush `_save_all` performs): every file in the
registry — enabled or not — gets a save attempt with the period check
bypassed, but the dirty-state check still applies: on a healthy
filesystem, `last_saved_time` advances to `now` exactly for the files
whose freshly-read snapshot differs from their last saved state, and the
flush performs zero disk writes iff no file's snapshot changed. -/
theorem c1_flush_saves_only_changed_files (dir : String)
    (files : List AutosaveFile) (now : Nat) (w : DiskOutcome)
    (hw : w.writeOk = true) (hr : w.renameOk = true) :
    (save_all dir files now w).files.map (fun f => f.last_saved_time) =
      files.map (fun f =>
        if state_changed (fresh_state f) f.last_state = true then now
        else f.last_saved_time) ∧
    ((save_all dir files now w).ops = [] ↔
      ∀ f ∈ files, state_changed (fresh_state f) f.last_state = false) := by
  induction files with
  | nil => simp [save_all]
  | cons f rest ih =>
    by_cases hc : state_changed (fresh_state f) f.last_state = true
    · have hs := @save_changed_force_ok dir f now w hc hw hr
      constructor
      · simp [save_all, hs, hc, ih.1]
      · simp [save_all, hs, List.forall_mem_cons, hc]
    · have hc' : state_changed (fresh_state f) f.last_state = false :=
        Bool.not_eq_true _ ▸ (Bool.eq_false_iff.mpr (fun ht => hc ht))
      have hs := @save_of_not_changed dir f now true w hc'
      constructor
      · simp [save_all, hs, hc', ih.1]
      · simp [save_all, hs, List.forall_mem_cons, hc', ih.2]

/-- Closed instance for claim C1's amended statement: flushing a dirty
file and a clean file advances only the dirty file's `last_saved_time`. -/
theorem c1_flush_saves_only_changed_files_witness :
    wOk.writeOk = true ∧ wOk.renameOk = true ∧
    ((save_all "d" [file_changed, file_unchanged] 1000 wOk).files.map
        (fun f => f.last_saved_time) =
      [file_changed, file_unchanged].map (fun f =>
        if state_changed (fresh_state f) f.last_state = true then 1000
        else f.last_saved_time) ∧
    ((save_all "d" [file_changed, file_unchanged] 1000 wOk).ops = [] ↔
      ∀ f ∈ [file_changed, file_unchanged],
        state_changed (fresh_state f) f.last_state = false)) :=
  ⟨rfl, rfl,
    c1_flush_saves_only_changed_files "d" [file_changed, file_unchanged]
      1000 wOk rfl rfl⟩

/-- Counterexample to claim C1 as stated: `file_unchanged` is enabled and
its last save lies 900 s in the past, yet the stop-flush (`_save_all`)
performs no disk write for it and its `last_saved_time` stays at 100 —
because `_save` keeps the dirty-state check even under `force=True`, the
flush is not "exactly one save attempt per enabled file regardless of
whether its snapshot differs", and `last_saved_time` does not advance for
all enabled files. -/
theorem c1_counterexample_flush_skips_clean_enabled_file :
    file_unchanged.enabled = true ∧
    (save_all "d" [file_unchanged] 1000 wOk).ops = [] ∧
    (save_all "d" [file_unchanged] 1000 wOk).files.map
      (fun f => f.last_saved_time) = [100] := by
  decide

/-- Claim C2 (code bug): with autosave enabled and at least one configured
file, `__Autosave.loop` NEVER returns, stop signal or not — its
`while True` body contains no `break` or `return`, so no amount of fuel
makes it terminate, and `worker.join()` in `_shutdown_autosave_thread`
blocks forever. -/
theorem c2_loop_never_terminates (dir : String) (stopSet : Bool)
    (w : DiskOutcome) (times : Nat → Nat) (files : List AutosaveFile)
    (h : files.isEmpty = false) :
    ∀ (fuel : Nat) (fs : List AutosaveFile),
      loop_run dir true stopSet w times fuel files ≠ LoopOutcome.returned fs := by
  have hiter : ∀ (fuel : Nat) (st fs : List AutosaveFile),
      loop_iter dir stopSet w times fuel st ≠ LoopOutcome.returned fs := by
    intro fuel
    induction fuel with
    | zero => intro st fs hc; exact LoopOutcome.noConfusion hc
    | succ n ih => intro st fs; simp only [loop_iter]; exact ih _ fs
  intro fuel fs hc
  rw [loop_run, if_neg] at hc
  · exact hiter fuel files fs hc
  · simp [h]

/-- Closed instance for claim C2's theorem: stop is signaled and the loop
is still running after three iterations. -/
theorem c2_loop_never_terminates_witness :
    ([file_changed] : List AutosaveFile).isEmpty = false ∧
    loop_run "d" true true wOk (fun _ => 0) 3 [file_changed] ≠
      LoopOutcome.returned [] :=
  ⟨rfl, c2_loop_never_terminates "d" true wOk (fun _ => 0) [file_changed] rfl 3 []⟩

/-- Claim C3, amended: the save path makes no backup at all — no `_save`
call ever performs a copy.  Backups are made by `_load` instead: for each
enabled file whose canonical file exists on disk, before parsing it,
`_load` copies it to the policy path — with `timestamped_backups`, the
canonical path suffixed with the file's `last_saved_time` rendered to
second granularity; otherwise the fixed path `<dir>/<filename>.bu`.
(There is no third `NONE` mode: the policy is the boolean
`timestamped_backups`.) -/
theorem c3_backups_made_by_load_not_save :
    (∀ (dir : String) (f : AutosaveFile) (now : Nat) (force : Bool)
        (w : DiskOutcome) (s d : String),
      DiskOp.copy s d ∉ (save dir f now force w).ops) ∧
    (∀ (dir : String) (lw : LoadWorld) (f : AutosaveFile),
      lw.isFile (get_sav_file dir f) = true →
      (load_file dir lw f).ops =
        [DiskOp.copy (get_sav_file dir f) (backup_path dir f)]) := by
  constructor
  · intro dir f now force w s d
    simp only [save]
    split
    · simp
    · split
      · simp
      · split
        · simp
        · split
          · simp
          · simp
  · intro dir lw f h
    simp only [load_file, h]
    split
    · simp_all
    · split <;> rfl

/-- Closed instance for claim C3's amended statement. -/
def lwOk : LoadWorld :=
  ⟨fun _ => true, fun _ => .ok [("x", Value.int 5)]⟩

theorem c3_backups_made_by_load_not_save_witness :
    lwOk.isFile (get_sav_file "d" file_unchanged) = true ∧
    DiskOp.copy "a" "b" ∉ (save "d" file_changed 86430 false wOk).ops ∧
    (load_file "d" lwOk file_unchanged).ops =
      [DiskOp.copy (get_sav_file "d" file_unchanged)
        (backup_path "d" file_unchanged)] :=
  ⟨rfl,
    c3_backups_made_by_load_not_save.1 "d" file_changed 86430 false wOk "a" "b",
    c3_backups_made_by_load_not_save.2 "d" lwOk file_unchanged rfl⟩

/-- Counterexample to claim C3 as stated: a save on a disk where the
canonical file exists (`wOk.savIsFile = true` — state `_save` never
consults) writes the new canonical file via temp-write and rename yet
performs no backup copy of the existing canonical file in any mode. -/
theorem c3_counterexample_save_writes_without_backup :
    wOk.savIsFile = true ∧
    (save "d" file_changed 86430 false wOk).ops =
      [DiskOp.writeTmp "d/auto.softsavB" [("x", Value.int 6)],
        DiskOp.rename "d/auto.softsavB" "d/auto.softsav"] := by
  decide

/-- Claim C4 (code bug): the source gates the periodic save on
`(now - last_saved_time).seconds < save_period`, the seconds COMPONENT of
the timedelta.  A dirty file whose last save lies one day and one second
in the past (elapsed 86401 s ≥ period 30 s, so the claim says it is
eligible) is skipped — no disk operation, `last_saved_time` not advanced —
while the same file at elapsed 30 s within the first day is saved, showing
the day wrap-around alone blocks the save. -/
theorem c4_elapsed_day_wrap_skips_save :
    (save "d" file_changed 86401 false wOk).ops = [] ∧
    (save "d" file_changed 86401 false wOk).file.last_saved_time = 0 ∧
    (save "d" file_changed 30 false wOk).ops ≠ [] := by
  decide

/-- Claim C5 (code bug): the loop's periodic pass
(`for file in self.files.values(): ... self._save(file, now)`) has no
per-file `enabled` filter: a file with `enabled = false` whose state
changed and whose period elapsed is read and written like any other,
instead of being skipped entirely. -/
theorem c5_disabled_file_saved_in_periodic_pass :
    file_disabled.enabled = false ∧
    (loop_pass "d" [file_disabled] 30 wOk).ops ≠ [] := by
  decide

/-- Claim C6 (the Differ contract): `_state_changed` returns true iff the
two snapshots' key sets differ or some shared key's value differs under
value-semantic, element-wise equality — in particular a key present in
only one snapshot always counts as a difference.  `state_changed` is a
pure Lean function, reflecting that the source only reads its inputs. -/
theorem c6_differ_contract (cur last : Dict) (hnd : (akeys cur).Nodup) :
    state_changed cur last = true ↔ snapshots_differ cur last :=
  state_changed_iff hnd

/-- Closed instance for claim C6: a snapshot with one key versus an empty
one. -/
theorem c6_differ_contract_witness :
    (akeys ([("x", Value.int 1)] : Dict)).Nodup ∧
    (state_changed [("x", Value.int 1)] [] = true ↔
      snapshots_differ [("x", Value.int 1)] []) :=
  ⟨by decide, c6_differ_contract [("x", Value.int 1)] [] (by decide)⟩

/-- A save whose `raised` flag is clear and whose operation list is
non-empty took the full success path: temp write, rename, and the update
of `last_state` to the fresh snapshot and of `last_saved_time` to `now`. -/
theorem save_success_characterization {dir : String} {f : AutosaveFile}
    {now : Nat} {force : Bool} {w : DiskOutcome}
    (hok : (save dir f now force w).raised = false)
    (hwrote : (save dir f now force w).ops ≠ []) :
    save dir f now force w =
      ⟨⟨f.filename, f.save_period, f.timestamped_backups, f.enabled, now,
          f.pvs, fresh_state f⟩,
        [DiskOp.writeTmp (get_tmp_file dir f) (fresh_state f),
          DiskOp.rename (get_tmp_file dir f) (get_sav_file dir f)], false⟩ := by
  revert hok hwrote
  simp only [save]
  split
  · intro h1 h2; exact absurd rfl h2
  · split
    · intro h1 h2; exact absurd rfl h2
    · split
      · intro h1 h2; simp at h1
      · split
        · intro h1 h2; simp at h1
        · intro h1 h2; rfl

/-- Claim C7: after a first save has successfully written a snapshot,
saving again — any later instant, forced or not, healthy filesystem or not
— performs zero disk writes (no temp-file write, no rename), because the
freshly-read snapshot (the accessors' outcomes being unchanged) equals the
stored `last_state`. -/
theorem c7_repeated_save_of_unchanged_snapshot_writes_nothing
    (dir : String) (f : AutosaveFile) (n1 n2 : Nat) (fo1 fo2 : Bool)
    (w1 w2 : DiskOutcome) (hnd : (akeys f.pvs).Nodup)
    (hok : (save dir f n1 fo1 w1).raised = false)
    (hwrote : (save dir f n1 fo1 w1).ops ≠ []) :
    (save dir (save dir f n1 fo1 w1).file n2 fo2 w2).ops = [] := by
  rw [save_success_characterization hok hwrote]
  have hclean : state_changed (fresh_state f) (fresh_state f) = false :=
    state_changed_self (akeys_get_state_nodup hnd)
  rw [save_of_not_changed hclean]

/-- Closed instance for claim C7: a dirty file is saved at instant 30;
saving the result again (even forced) performs no disk operation. -/
theorem c7_repeated_save_of_unchanged_snapshot_writes_nothing_witness :
    (akeys file_changed.pvs).Nodup ∧
    (save "d" file_changed 30 false wOk).raised = false ∧
    (save "d" file_changed 30 false wOk).ops ≠ [] ∧
    (save "d" (save "d" file_changed 30 false wOk).file 60 true wOk).ops = [] :=
  ⟨by decide, by decide, by decide,
    c7_repeated_save_of_unchanged_snapshot_writes_nothing "d" file_changed
      30 60 false true wOk wOk (by decide) (by decide) (by decide)⟩

/-- Claim C8: applying a deserialized state map is per-key isolated.
Every entry whose key has a registered accessor and whose set succeeds
lands in `applied`, regardless of what other entries do; every entry
without a matching accessor gets a diagnostic for its key; every entry
whose set call fails (accessor present, `setOk` false) also gets a
diagnostic for its key; and every entry is either applied or diagnosed
(their counts sum to the state's size), so no exception escapes — the
function is total. -/
theorem c8_set_pvs_per_key_isolation (pvs : List (String × Accessor))
    (state : Dict) :
    (∀ k v a, (k, v) ∈ state → alookup pvs k = some a → a.setOk v = true →
        (k, v) ∈ (set_pvs_from_state pvs state).applied) ∧
    (∀ k v, (k, v) ∈ state → alookup pvs k = none →
        k ∈ (set_pvs_from_state pvs state).diags) ∧
    (∀ k v a, (k, v) ∈ state → alookup pvs k = some a → a.setOk v = false →
        k ∈ (set_pvs_from_state pvs state).diags) ∧
    (set_pvs_from_state pvs state).applied.length +
        (set_pvs_from_state pvs state).diags.length = state.length := by
  induction state with
  | nil =>
    exact ⟨fun k v a hmem _ _ => absurd hmem (by simp),
      fun k v hmem _ => absurd hmem (by simp),
      fun k v a hmem _ _ => absurd hmem (by simp), rfl⟩
  | cons p rest ih =>
    obtain ⟨k0, v0⟩ := p
    cases hls : pv_lookup_and_set pvs k0 v0 with
    | ok u =>
      refine ⟨?_, ?_, ?_, ?_⟩
      · intro k v a hmem hacc hset
        simp only [set_pvs_from_state, hls]
        rcases List.mem_cons.mp hmem with h | h
        · rw [h]; exact List.mem_cons_self _ _
        · exact List.mem_cons_of_mem _ (ih.1 k v a h hacc hset)
      · intro k v hmem hnone
        simp only [set_pvs_from_state, hls]
        rcases List.mem_cons.mp hmem with h | h
        · rw [Prod.mk.injEq] at h
          rw [h.1] at hnone
          rw [pv_lookup_and_set, hnone] at hls
          cases hls
        · exact ih.2.1 k v h hnone
      · intro k v a hmem hacc hsf
        simp only [set_pvs_from_state, hls]
        rcases List.mem_cons.mp hmem with h | h
        · rw [Prod.mk.injEq] at h
          rw [← h.1, ← h.2] at hls
          rw [pv_lookup_and_set, hacc] at hls
          simp [hsf] at hls
        · exact ih.2.2.1 k v a h hacc hsf
      · simp only [set_pvs_from_state, hls, List.length_cons]
        have := ih.2.2.2
        omega
    | error e =>
      refine ⟨?_, ?_, ?_, ?_⟩
      · intro k v a hmem hacc hset
        simp only [set_pvs_from_state, hls]
        rcases List.mem_cons.mp hmem with h | h
        · rw [Prod.mk.injEq] at h
          rw [← h.1, ← h.2] at hls
          rw [pv_lookup_and_set, hacc] at hls
          simp [hset] at hls
        · exact ih.1 k v a h hacc hset
      · intro k v hmem hnone
        simp only [set_pvs_from_state, hls]
        rcases List.mem_cons.mp hmem with h | h
        · rw [Prod.mk.injEq] at h
          rw [h.1]
          exact List.mem_cons_self _ _
        · exact List.mem_cons_of_mem _ (ih.2.1 k v h hnone)
      · intro k v a hmem hacc hsf
        simp only [set_pvs_from_state, hls]
        rcases List.mem_cons.mp hmem with h | h
        · rw [Prod.mk.injEq] at h
          rw [h.1]
          exact List.mem_cons_self _ _
        · exact List.mem_cons_of_mem _ (ih.2.2.1 k v a h hacc hsf)
      · simp only [set_pvs_from_state, hls, List.length_cons]
        have := ih.2.2.2
        omega

/-- An accessor whose set always succeeds, for the C8 scenario. -/
def acc_set_ok : Accessor :=
  ⟨.ok (Value.int 0), fun _ => true⟩

/-- An accessor whose set call always raises, for the C8 scenario's
set-failure arm. -/
def acc_set_fail : Accessor :=
  ⟨.ok (Value.int 0), fun _ => false⟩

/-- Registered accessors of the C8 scenario: keys "a" and "b" set
successfully, key "c" is registered but its set raises, and "ghost" has
no accessor. -/
def pvs8 : List (String × Accessor) :=
  [("a", acc_set_ok), ("b", acc_set_ok), ("c", acc_set_fail)]

/-- Deserialized state of the C8 scenario. -/
def state8 : Dict :=
  [("a", Value.int 1), ("b", Value.int 2), ("ghost", Value.int 3),
    ("c", Value.int 4)]

/-- Closed instance for claim C8: loading keys a, b, ghost, c where only
a, b, c are registered and c's set raises — a and b are applied, ghost
gets an unknown-key diagnostic, c gets a set-failure diagnostic, and all
four entries are handled. -/
theorem c8_set_pvs_per_key_isolation_witness :
    ("a", Value.int 1) ∈ state8 ∧
    alookup pvs8 "ghost" = none ∧
    alookup pvs8 "c" = some acc_set_fail ∧
    acc_set_fail.setOk (Value.int 4) = false ∧
    ("a", Value.int 1) ∈ (set_pvs_from_state pvs8 state8).applied ∧
    ("b", Value.int 2) ∈ (set_pvs_from_state pvs8 state8).applied ∧
    "ghost" ∈ (set_pvs_from_state pvs8 state8).diags ∧
    "c" ∈ (set_pvs_from_state pvs8 state8).diags ∧
    (set_pvs_from_state pvs8 state8).applied.length +
      (set_pvs_from_state pvs8 state8).diags.length = state8.length :=
  ⟨by decide, rfl, rfl, rfl,
    (c8_set_pvs_per_key_isolation pvs8 state8).1 "a" (Value.int 1) acc_set_ok
      (by decide) rfl rfl,
    (c8_set_pvs_per_key_isolation pvs8 state8).1 "b" (Value.int 2) acc_set_ok
      (by decide) rfl rfl,
    (c8_set_pvs_per_key_isolation pvs8 state8).2.1 "ghost" (Value.int 3)
      (by decide) rfl,
    (c8_set_pvs_per_key_isolation pvs8 state8).2.2.1 "c" (Value.int 4)
      acc_set_fail (by decide) rfl rfl,
    (c8_set_pvs_per_key_isolation pvs8 state8).2.2.2⟩

/-- A save of a changed snapshot on a healthy filesystem whose period
check passes (or is forced) completes the temp write and rename. -/
theorem save_changed_ok {dir : String} {f : AutosaveFile} {now : Nat}
    {force : Bool} {w : DiskOutcome}
    (hcond : ¬((now - f.last_saved_time) % 86400 < f.save_period ∧
      force = false))
    (h : state_changed (fresh_state f) f.last_state = true)
    (hw : w.writeOk = true) (hr : w.renameOk = true) :
    save dir f now force w =
      ⟨⟨f.filename, f.save_period, f.timestamped_backups, f.enabled, now,
          f.pvs, fresh_state f⟩,
        [DiskOp.writeTmp (get_tmp_file dir f) (fresh_state f),
          DiskOp.rename (get_tmp_file dir f) (get_sav_file dir f)], false⟩ := by
  simp [save, hcond, h, hw, hr]

/-- Claim C9: if the temp write or the rename raises inside `_save`, the
file's in-memory `last_state` and `last_saved_time` are untouched (the
whole record is returned unchanged), the exception is caught by the loop's
`except` (reported, not rethrown across the engine boundary), and any
later tick whose elapsed-seconds check passes on a healthy filesystem
retries the write, because the unchanged `last_state` still differs from
the fresh snapshot. -/
theorem c9_save_io_error_reported_state_unchanged_retries (dir : String)
    (f : AutosaveFile) (now : Nat) (w : DiskOutcome)
    (h : (save dir f now false w).raised = true) :
    (save dir f now false w).file = f ∧
    (loop_pass dir [f] now w).caught = true ∧
    (loop_pass dir [f] now w).files = [f] ∧
    ∀ (now2 : Nat) (w2 : DiskOutcome),
      f.save_period ≤ (now2 - f.last_saved_time) % 86400 →
      w2.writeOk = true → w2.renameOk = true →
      (save dir f now2 false w2).ops ≠ [] := by
  have hc : state_changed (fresh_state f) f.last_state = true := by
    by_cases hc : state_changed (fresh_state f) f.last_state = true
    · exact hc
    · have hc' : state_changed (fresh_state f) f.last_state = false := by
        simpa using hc
      rw [save_of_not_changed hc'] at h
      simp at h
  have hfile : (save dir f now false w).file = f := by
    revert h
    simp only [save]
    split
    · intro h; simp at h
    · split
      · intro h; simp at h
      · split
        · intro _; rfl
        · split
          · intro _; rfl
          · intro h; simp at h
  refine ⟨hfile, ?_, ?_, ?_⟩
  · simp [loop_pass, h]
  · simp [loop_pass, h, hfile]
  · intro now2 w2 hp hw2 hr2
    rw [save_changed_ok (by omega) hc hw2 hr2]
    simp

/-- Closed instance for claim C9: the temp write fails at instant 30; the
file record survives unchanged, the loop catches the error, and instant 60
retries the write. -/
theorem c9_save_io_error_reported_state_unchanged_retries_witness :
    (save "d" file_changed 30 false wWriteFail).raised = true ∧
    ((save "d" file_changed 30 false wWriteFail).file = file_changed ∧
      (loop_pass "d" [file_changed] 30 wWriteFail).caught = true ∧
      (loop_pass "d" [file_changed] 30 wWriteFail).files = [file_changed] ∧
      ∀ (now2 : Nat) (w2 : DiskOutcome),
        file_changed.save_period ≤
          (now2 - file_changed.last_saved_time) % 86400 →
        w2.writeOk = true → w2.renameOk = true →
        (save "d" file_changed now2 false w2).ops ≠ []) :=
  ⟨by decide,
    c9_save_io_error_reported_state_unchanged_retries "d" file_changed 30
      wWriteFail (by decide)⟩

theorem alookup_dinsert_self {α : Type} (l : List (String × α)) (k : String)
    (v : α) : alookup (dinsert l k v) k = some v := by
  induction l with
  | nil => simp [dinsert, alookup]
  | cons p rest ih =>
    obtain ⟨k', v'⟩ := p
    by_cases hk : k' = k
    · simp [dinsert, hk, alookup]
    · simp [dinsert, hk, alookup, ih]

/-- Claim C10: calling `add_pv_to_autosave` with a non-empty `save_fields`
list always raises `TypeError` — `__AutosaveFile(pv, field)` supplies two
arguments to a four-argument constructor — so the call never completes and
no field accessor is ever registered: the registry afterwards carries only
the `save_val` whole-value registration.  Moreover the loop's assignment
target is the bare PV name: had a constructor call produced an accessor,
it would be stored under key `name`, replacing any whole-value accessor
registered there. -/
theorem c10_add_pv_with_save_fields_raises (files : List (String × AutosaveFile))
    (pv : Accessor) (name : String) (sv : Bool) (flds : List String)
    (filename : String) (file : AutosaveFile)
    (hne : flds ≠ [])
    (hconf : alookup files (if filename = "" then DEFAULT_FILENAME else filename)
      = some file) :
    (add_pv_to_autosave files pv name sv flds filename).2 =
      .error PyErr.typeError ∧
    (add_pv_to_autosave files pv name sv flds filename).1 =
      dinsert files (if filename = "" then DEFAULT_FILENAME else filename)
        (if sv then
          ⟨file.filename, file.save_period, file.timestamped_backups,
            file.enabled, file.last_saved_time,
            dinsert file.pvs name (autosave_pv pv), file.last_state⟩
        else file) ∧
    (∀ (mk : String → Except PyErr Accessor) (g : AutosaveFile)
        (fld : String) (rest : List String) (a : Accessor),
      mk fld = .ok a →
      ∃ g2, add_fields_loop mk name g (fld :: rest) =
          add_fields_loop mk name g2 rest ∧
        g2.pvs = dinsert g.pvs name a ∧
        alookup g2.pvs name = some a) := by
  obtain ⟨fld0, rest0, rfl⟩ := List.exists_cons_of_ne_nil hne
  refine ⟨?_, ?_, ?_⟩
  · simp only [add_pv_to_autosave, hconf, add_fields_loop,
      autosaveFile_two_arg_call]
  · simp only [add_pv_to_autosave, hconf, add_fields_loop,
      autosaveFile_two_arg_call]
  · intro mk g fld rest a hmk
    refine ⟨⟨g.filename, g.save_period, g.timestamped_backups, g.enabled,
      g.last_saved_time, dinsert g.pvs name a, g.last_state⟩, ?_, rfl,
      alookup_dinsert_self g.pvs name a⟩
    simp only [add_fields_loop, hmk]

/-- Closed instance for claim C10: registering PV "y" with one save-field
into the configured default file raises `TypeError`. -/
theorem c10_add_pv_with_save_fields_raises_witness :
    (["EGU"] : List String) ≠ [] ∧
    (add_pv_to_autosave [("auto", file_changed)] (acc_int 7) "y" true
      ["EGU"] "").2 = .error PyErr.typeError :=
  ⟨by decide,
    (c10_add_pv_with_save_fields_raises [("auto", file_changed)] (acc_int 7)
      "y" true ["EGU"] "" file_changed (by decide) rfl).1⟩

end Autosave
